import Mathlib

/-!
# Verification of the Dremio OpenMetadata connector
  (`src/connector/dremio_connector.py`)

A shallow embedding, in Lean 4, of the connector's namespace-translation
layer, database/schema discovery and connection-URL resolution, with
theorems settling the frozen claims about the natural-language spec.

Modelling conventions:
* Python strings that are sliced and tested character-wise (schema names)
  are embedded as `List Char`; strings used only as atomic keys/values
  (option names, database candidates) stay `String`.
* A Python value that may be `None`, `False`/`True` or a string (the
  connection-option values flowing through `_get_option_or_else`) is the
  inductive `PyVal`; f-string interpolation is `PyVal.toStr` and Python
  truthiness is `PyVal.truthy`.
* Python code that can raise is embedded in `Except String`; the error
  string carries the exception's message.
* External collaborators (`fqn.build`, `filter_by_database`,
  `set_inspector`'s engine rebuild) are abstract function parameters
  collected in `DiscoveryEnv`: the claims hold for every behaviour of the
  collaborators.
-/

namespace DremioConnector

/-! ## Python string helpers -/

/-- The ASCII whitespace characters `str.strip()` removes (the Unicode
space characters, irrelevant to every claim, are omitted). -/
def pyIsSpace (c : Char) : Bool :=
  c == ' ' || c == '\t' || c == '\n' || c == '\x0b' || c == '\x0c' || c == '\r'

/-- `schema_name.strip() == ""`: every character is whitespace. -/
def pyStripIsEmpty (schema_name : List Char) : Bool :=
  schema_name.all pyIsSpace

/-! ## NamespaceTranslator (`_remove_database_from_schema_name`,
`_add_database_to_schema_name`, lines 170-184)

`database` is the connector's `self.database` field (`None` before any
`set_inspector` call). The Python condition
`not schema_name.startswith(self.database) or schema_name is None or
schema_name == self.database` short-circuits left to right; for an actual
string argument the `is None` test is unreachable, so the string-level
embedding keeps only the two live disjuncts. The `None`-argument behaviour
is embedded separately in `remove_database_from_schema_name_py`. -/

/-- `_remove_database_from_schema_name` on a (non-`None`) string argument.
`schema_name[len(self.database) + 1:]` is `List.drop (db.length + 1)`. -/
def remove_database_from_schema_name (database : Option (List Char))
    (schema_name : List Char) : List Char :=
  match database with
  | none => schema_name
  | some db =>
      if !(db.isPrefixOf schema_name) || schema_name == db then
        schema_name
      else
        schema_name.drop (db.length + 1)

/-- `_remove_database_from_schema_name` as Python executes it when the
argument may be `None`: with a database selected, the guard evaluates
`schema_name.startswith(self.database)` first, so a `None` argument hits
attribute access on `None` and raises before the (dead) `is None` test. -/
def remove_database_from_schema_name_py (database : Option (List Char))
    (schema_name : Option (List Char)) : Except String (Option (List Char)) :=
  match database with
  | none => Except.ok schema_name
  | some db =>
      match schema_name with
      | none =>
          Except.error "AttributeError: NoneType object has no attribute startswith"
      | some s => Except.ok (some (remove_database_from_schema_name (some db) s))

/-- `_add_database_to_schema_name` (lines 178-184): a `None`-or-blank
catalog name maps to the database itself, anything else gets the
`<database>.` prefix. -/
def add_database_to_schema_name (database : Option (List Char))
    (schema_name : List Char) : List Char :=
  match database with
  | none => schema_name
  | some db =>
      if pyStripIsEmpty schema_name then db
      else db ++ ['.'] ++ schema_name

/-! ## SchemaDiscovery (`get_raw_database_schema_names`, lines 159-168)

The engine is abstracted by the full row set of
`INFORMATION_SCHEMA.SCHEMATA` (`schemata`); the two fixed SQL queries are
embedded as the filters their `WHERE` clauses denote. -/

/-- Result set of the `DREMIO_GET_SCHEMAS` query (lines 42-48):
`SCHEMA_NAME LIKE '{database_name}.%'`, i.e. the names extending
`database_name` followed by a dot. -/
def DREMIO_GET_SCHEMAS (database_name : List Char)
    (schemata : List (List Char)) : List (List Char) :=
  schemata.filter (fun schema_name => (database_name ++ ['.']).isPrefixOf schema_name)

/-- `get_raw_database_schema_names`: with a database selected, the raw
names come from `DREMIO_GET_SCHEMAS`; otherwise from the inspector.
Every raw name is passed through `_remove_database_from_schema_name`
before being yielded. -/
def get_raw_database_schema_names (database : Option (List Char))
    (schemata : List (List Char)) (inspectorSchemaNames : List (List Char)) :
    List (List Char) :=
  let schemas := match database with
    | some d => DREMIO_GET_SCHEMAS d schemata
    | none => inspectorSchemaNames
  schemas.map (fun schema_name => remove_database_from_schema_name database schema_name)

/-! ## DatabaseDiscovery (`get_database_names`, lines 121-149)

Candidate names here are atomic, so they stay `String`. The externals the
loop calls are abstracted into `DiscoveryEnv`; observable reporting
(`self.status.filter`, `logger.error`, `logger.warning`) is collected as a
trace of `DiscoveryEvent`s alongside the yielded names. -/

/-- SQL `STARTS_WITH` / Python `startswith`, read charwise. -/
def pyStartsWith (s pre : String) : Bool :=
  pre.toList.isPrefixOf s.toList

/-- SQL `LIKE '%.%'` / Python `in`, read charwise: `c` occurs in `s`. -/
def pyContains (s : String) (c : Char) : Bool :=
  s.toList.contains c

/-- Result set of the `DREMIO_GET_DATABASES` query (lines 32-40):
`SCHEMA_NAME NOT LIKE '%.%' AND NOT STARTS_WITH(SCHEMA_NAME, '@') AND NOT
STARTS_WITH(SCHEMA_NAME, '$')`. -/
def DREMIO_GET_DATABASES (schemata : List String) : List String :=
  schemata.filter (fun schema_name =>
    !(pyContains schema_name '.') && !(pyStartsWith schema_name "@") &&
      !(pyStartsWith schema_name "$"))

/-- `get_database_names_raw` (lines 114-115): executes `DREMIO_GET_DATABASES`. -/
def get_database_names_raw (schemata : List String) : List String :=
  DREMIO_GET_DATABASES schemata

/-- `get_configured_database` (lines 111-112): the pre-selection hook,
always `None` in this connector. -/
def get_configured_database : Option String := none

/-- One observable report of the discovery loop. -/
inductive DiscoveryEvent where
  /-- `self.status.filter(database_fqn, "Database Filtered Out")` -/
  | statusFiltered (databaseFqn : String)
  /-- `logger.error(traceback.format_exc())` inside the except block -/
  | logError (databaseName : String)
  /-- `logger.warning(f"Error trying to process database ...")` -/
  | logWarning (databaseName : String)
deriving DecidableEq

/-- The external collaborators `get_database_names` calls, abstracted as
functions: the claims quantify over every behaviour of them. -/
structure DiscoveryEnv where
  /-- `fqn.build(self.metadata, entity_type=Database, service_name=..., database_name=db)` -/
  fqnOf : String → String
  /-- `filter_by_database(self.source_config.databaseFilterPattern, x)`:
  `true` means the name is filtered out (the pattern is part of the
  abstracted behaviour). -/
  filterByDatabase : String → Bool
  /-- `self.source_config.useFqnForFiltering` -/
  useFqnForFiltering : Bool
  /-- `self.set_inspector(database_name=db)`: rebuilds the engine for `db`;
  `Except.error` is the exception the try/except catches. -/
  setInspector : String → Except String Unit

/-- One iteration of the `for new_database in self.get_database_names_raw()`
loop: (names yielded, events reported) for this candidate. -/
def processDatabase (env : DiscoveryEnv) (new_database : String) :
    List String × List DiscoveryEvent :=
  let database_fqn := env.fqnOf new_database
  if env.filterByDatabase
      (if env.useFqnForFiltering then database_fqn else new_database) then
    ([], [DiscoveryEvent.statusFiltered database_fqn])
  else
    match env.setInspector new_database with
    | Except.ok _ => ([new_database], [])
    | Except.error _ =>
        ([], [DiscoveryEvent.logError new_database,
              DiscoveryEvent.logWarning new_database])

/-- `get_database_names`: the yielded names and the reported events, in
loop order. The `configured_database` branch is kept although
`get_configured_database` is constantly `None`. -/
def get_database_names (env : DiscoveryEnv) (schemata : List String) :
    List String × List DiscoveryEvent :=
  match get_configured_database with
  | some configured => ([configured], [])
  | none =>
      ((get_database_names_raw schemata).flatMap
        (fun new_database => (processDatabase env new_database).1),
       (get_database_names_raw schemata).flatMap
        (fun new_database => (processDatabase env new_database).2))

/-! ## ConnectionConfigResolver (`get_connection_url`, lines 235-272)

`connection.connectionOptions.root` is a Python dict from option name to
string value; it is embedded as an association list with distinct keys
(dict keys are unique), looked up by first match and iterated in insertion
order. -/

/-- A Python value flowing through `_get_option_or_else`: a string from
the option map, a boolean default, or `None`. -/
inductive PyVal where
  | str (s : String)
  | bool (b : Bool)
  | none
deriving DecidableEq

/-- Python f-string interpolation of a `PyVal`. -/
def PyVal.toStr : PyVal → String
  | PyVal.str s => s
  | PyVal.bool b => if b then "True" else "False"
  | PyVal.none => "None"

/-- Python truthiness: `""`, `False` and `None` are falsy. -/
def PyVal.truthy : PyVal → Bool
  | PyVal.str s => !(s == "")
  | PyVal.bool b => b
  | PyVal.none => false

/-- `connection.connectionOptions.root.get(option_name)`: the value, or
`None` when the key is absent. -/
def lookupOption (opts : List (String × String)) (option_name : String) : PyVal :=
  match opts.find? (fun kv => kv.1 == option_name) with
  | Option.some kv => PyVal.str kv.2
  | Option.none => PyVal.none

/-- `_get_option_or_else` (lines 236-243): a falsy value raises
`InvalidDremioConnectorException` when `expected`, else falls back to the
default. -/
def get_option_or_else (opts : List (String × String)) (option_name : String)
    (dflt : PyVal) (expected : Bool) : Except String PyVal :=
  let value := lookupOption opts option_name
  if value.truthy then Except.ok value
  else if expected then
    Except.error ("Missing connection option: " ++ option_name)
  else Except.ok dflt

/-- `_get_option_or_else` with `expected=False` never raises: its value,
used for the two recognized booleans and the pass-through options. -/
def optionValue (opts : List (String × String)) (option_name : String)
    (dflt : PyVal) : PyVal :=
  let value := lookupOption opts option_name
  if value.truthy then value else dflt

/-- The recognized option keys subtracted in lines 255-258. -/
def recognizedOptionKeys : List String :=
  ["username", "password", "hostPort", "UseEncryption", "disableCertificateVerification"]

/-- `not_handled_options`: the keys outside the recognized set. The keys of
a Python dict are distinct, so taking them in insertion order realizes the
set difference (whose iteration order Python leaves unspecified). -/
def notHandledOptions (opts : List (String × String)) : List String :=
  (opts.map Prod.fst).filter (fun k => !(recognizedOptionKeys.contains k))

/-- Python `"&".join`. -/
def joinAmp : List String → String
  | [] => ""
  | [x] => x
  | x :: xs => x ++ "&" ++ joinAmp xs

/-- `get_connection_url` (lines 235-272): validates the three required
options (each raise is propagated), reads the two recognized booleans with
their defaults, renders every other key as `key=value` and assembles the
URL. -/
def get_connection_url (opts : List (String × String)) : Except String String :=
  match get_option_or_else opts "username" PyVal.none true with
  | Except.error e => Except.error e
  | Except.ok username =>
  match get_option_or_else opts "password" PyVal.none true with
  | Except.error e => Except.error e
  | Except.ok password =>
  match get_option_or_else opts "hostPort" PyVal.none true with
  | Except.error e => Except.error e
  | Except.ok host_port =>
  let use_encryption := optionValue opts "UseEncryption" (PyVal.bool false)
  let disable_certificate_verification :=
    optionValue opts "disableCertificateVerification" (PyVal.bool true)
  let additional_options := joinAmp
    (["UseEncryption=" ++ use_encryption.toStr,
      "disableCertificateVerification=" ++ disable_certificate_verification.toStr] ++
     (notHandledOptions opts).map
       (fun k => k ++ "=" ++ (optionValue opts k PyVal.none).toStr))
  Except.ok ("dremio+flight://" ++ username.toStr ++ ":" ++ password.toStr ++ "@" ++
    host_port.toStr ++ "/?" ++ additional_options)

/-! ## Concrete instances used by the witness theorems -/

/-- A concrete collaborator behaviour: no fqn-based filtering, the filter
pattern matches exactly "hr", and `set_inspector` raises exactly on "bad". -/
def envW : DiscoveryEnv where
  fqnOf := fun db => "service." ++ db
  filterByDatabase := fun x => x == "hr"
  useFqnForFiltering := false
  setInspector := fun db =>
    if db == "bad" then Except.error "connection refused" else Except.ok ()

/-- A concrete engine row set mixing regular spaces with system namespaces. -/
def schemataW : List String :=
  ["@tmp", "$internal", "sales.public", "sales", "hr", "bad", "marketing"]

/-! ## Helper lemmas -/

theorem isPrefixOf_append_self (d t : List Char) : d.isPrefixOf (d ++ t) = true := by
  induction d with
  | nil => simp [List.isPrefixOf]
  | cons c cs ih => simp [List.isPrefixOf, ih]

theorem drop_length_succ_append (d t : List Char) :
    (d ++ t).drop (d.length + 1) = t.drop 1 := by
  rw [← List.drop_drop, List.drop_left]

theorem strip_of_not_isPrefixOf (d r : List Char) (h : d.isPrefixOf r = false) :
    remove_database_from_schema_name (some d) r = r := by
  simp [remove_database_from_schema_name, h]

theorem strip_self (d : List Char) :
    remove_database_from_schema_name (some d) d = d := by
  simp [remove_database_from_schema_name]

theorem strip_append (d t : List Char) (h : t ≠ []) :
    remove_database_from_schema_name (some d) (d ++ t) = t.drop 1 := by
  have hp : d.isPrefixOf (d ++ t) = true := isPrefixOf_append_self d t
  have hne : ((d ++ t) == d) = false := by
    refine beq_eq_false_iff_ne.mpr (fun hEq => h ?_)
    have hlen := congrArg List.length hEq
    simp only [List.length_append] at hlen
    exact List.eq_nil_of_length_eq_zero (by omega)
  simp [remove_database_from_schema_name, hp, hne, drop_length_succ_append]

/-! ## Claim C1 -/

/-- C1 (counterexample): the round-trip fails for the non-empty, all-blank
catalog name " ": `_add_database_to_schema_name` maps it to the database
itself (the root-of-database case), which `_remove_database_from_schema_name`
returns unchanged, so "sales" comes back instead of " ". -/
theorem strip_add_roundtrip_cex :
    ¬ (remove_database_from_schema_name (some ("sales".toList))
        (add_database_to_schema_name (some ("sales".toList)) (" ".toList))
      = " ".toList) := by decide

/-- C1 (amended): for every selected database d and every catalog schema
name s that is non-blank (some character is not whitespace — not merely
non-empty), stripping after adding returns s again. -/
theorem strip_add_roundtrip (d s : List Char) (h : pyStripIsEmpty s = false) :
    remove_database_from_schema_name (some d)
      (add_database_to_schema_name (some d) s) = s := by
  have hadd : add_database_to_schema_name (some d) s = d ++ ('.' :: s) := by
    simp [add_database_to_schema_name, h]
  rw [hadd, strip_append d ('.' :: s) (by simp)]
  simp

/-- C1 (witness): the amended round-trip at d = "sales", s = "public". -/
theorem strip_add_roundtrip_witness :
    pyStripIsEmpty ("public".toList) = false ∧
    remove_database_from_schema_name (some ("sales".toList))
      (add_database_to_schema_name (some ("sales".toList)) ("public".toList))
      = "public".toList :=
  ⟨by decide, strip_add_roundtrip ("sales".toList) ("public".toList) (by decide)⟩

/-! ## Claim C2 -/

/-- C2 (counterexample): "salesXY" starts with the selected database
"sales" but not with "sales." — the claim says it is returned unchanged,
yet the code only tests `startswith(self.database)` (no dot) and so strips
len("sales")+1 = 6 characters, returning "Y". -/
theorem strip_no_dot_check_cex :
    ¬ (remove_database_from_schema_name (some ("sales".toList)) ("salesXY".toList)
      = "salesXY".toList) := by decide

/-- C2 (amended): with database d selected,
`_remove_database_from_schema_name` returns its input unchanged whenever
the input does not start with d at all, or equals d exactly; every input
that strictly extends d — whether or not the next character is a dot —
has its first len(d)+1 characters removed. -/
theorem strip_characterization (d s t : List Char) :
    (d.isPrefixOf s = false → remove_database_from_schema_name (some d) s = s) ∧
    (remove_database_from_schema_name (some d) d = d) ∧
    (t ≠ [] → remove_database_from_schema_name (some d) (d ++ t) = (d ++ t).drop (d.length + 1)) ∧
    (t ≠ [] → remove_database_from_schema_name (some d) (d ++ t) = t.drop 1) :=
  ⟨strip_of_not_isPrefixOf d s, strip_self d,
   fun ht => by rw [strip_append d t ht, drop_length_succ_append],
   strip_append d t⟩

/-- C2 (witness): the characterization at d = "sales", instantiated at the
unrelated name "hr", at "sales" itself, and at the extension "salesXY"
("sales" ++ "XY" with a non-dot continuation, stripped to "Y"). -/
theorem strip_characterization_witness :
    (("sales".toList).isPrefixOf ("hr".toList) = false ∧
      remove_database_from_schema_name (some ("sales".toList)) ("hr".toList) = "hr".toList) ∧
    remove_database_from_schema_name (some ("sales".toList)) ("sales".toList) = "sales".toList ∧
    remove_database_from_schema_name (some ("sales".toList)) ("sales".toList ++ "XY".toList)
      = ("XY".toList).drop 1 :=
  ⟨⟨by decide,
    (strip_characterization ("sales".toList) ("hr".toList) ("XY".toList)).1 (by decide)⟩,
   (strip_characterization ("sales".toList) ("hr".toList) ("XY".toList)).2.1,
   (strip_characterization ("sales".toList) ("hr".toList) ("XY".toList)).2.2.2 (by decide)⟩

/-! ## Claim C7 -/

/-- C7 (counterexample): stripping is not idempotent. With database "a"
selected, "a.a.b" strips to "a.b", which still starts with "a" and so
strips again to "b". -/
theorem strip_idempotent_cex :
    ¬ (remove_database_from_schema_name (some ("a".toList))
        (remove_database_from_schema_name (some ("a".toList)) ("a.a.b".toList))
      = remove_database_from_schema_name (some ("a".toList)) ("a.a.b".toList)) := by
  decide

/-- C7 (amended): stripping twice equals stripping once for every schema
name s whose once-stripped value does not again start with the selected
database d, or equals d, or equals s itself (the failing inputs are exactly
those that carry the database prefix twice, like "a.a.b" under "a"). -/
theorem strip_idempotent_cond (d s : List Char)
    (h : d.isPrefixOf (remove_database_from_schema_name (some d) s) = false ∨
         remove_database_from_schema_name (some d) s = d ∨
         remove_database_from_schema_name (some d) s = s) :
    remove_database_from_schema_name (some d)
        (remove_database_from_schema_name (some d) s)
      = remove_database_from_schema_name (some d) s := by
  rcases h with h | h | h
  · exact strip_of_not_isPrefixOf d _ h
  · rw [h, strip_self]
  · rw [h]
    exact h

/-- C7 (witness): conditional idempotence at d = "sales", s =
"sales.public", whose stripped value "public" no longer starts with
"sales". -/
theorem strip_idempotent_cond_witness :
    (("sales".toList).isPrefixOf
        (remove_database_from_schema_name (some ("sales".toList)) ("sales.public".toList))
      = false) ∧
    remove_database_from_schema_name (some ("sales".toList))
        (remove_database_from_schema_name (some ("sales".toList)) ("sales.public".toList))
      = remove_database_from_schema_name (some ("sales".toList)) ("sales.public".toList) :=
  ⟨by decide,
   strip_idempotent_cond ("sales".toList) ("sales.public".toList) (Or.inl (by decide))⟩

/-! ## Claim C8 -/

/-- C8 (code evaluated at the failing input): with database "sales"
selected, a None schema name makes `_remove_database_from_schema_name`
raise AttributeError — the guard evaluates `schema_name.startswith(...)`
before its (dead) `schema_name is None` test — while the empty string is
returned unchanged. -/
theorem strip_none_input_raises :
    remove_database_from_schema_name_py (some ("sales".toList)) none
      = Except.error "AttributeError: NoneType object has no attribute startswith" ∧
    remove_database_from_schema_name_py (some ("sales".toList)) (some [])
      = Except.ok (some []) :=
  ⟨rfl, rfl⟩

/-! ## Claim C9 -/

/-- C9: with a database selected, `get_raw_database_schema_names` yields
exactly the raw names of the `DREMIO_GET_SCHEMAS` query, each passed
through `_remove_database_from_schema_name`, in query order; in particular
database "sales" with raw names ["sales.public", "sales.reporting"]
yields ["public", "reporting"] in that order. -/
theorem get_raw_database_schema_names_strips
    (d : List Char) (schemata inspectorSchemaNames : List (List Char)) :
    get_raw_database_schema_names (some d) schemata inspectorSchemaNames
      = (DREMIO_GET_SCHEMAS d schemata).map
          (remove_database_from_schema_name (some d)) ∧
    get_raw_database_schema_names (some ("sales".toList))
        ["sales.public".toList, "sales.reporting".toList] []
      = ["public".toList, "reporting".toList] :=
  ⟨rfl, by decide⟩

/-! ## DatabaseDiscovery lemmas -/

theorem get_database_names_eq (env : DiscoveryEnv) (schemata : List String) :
    get_database_names env schemata
      = ((get_database_names_raw schemata).flatMap
          (fun new_database => (processDatabase env new_database).1),
         (get_database_names_raw schemata).flatMap
          (fun new_database => (processDatabase env new_database).2)) := rfl

theorem mem_processDatabase_fst (env : DiscoveryEnv) (db x : String)
    (h : x ∈ (processDatabase env db).1) :
    x = db ∧
    env.filterByDatabase (if env.useFqnForFiltering then env.fqnOf db else db) = false ∧
    env.setInspector db = Except.ok () := by
  cases hfil : env.filterByDatabase (if env.useFqnForFiltering then env.fqnOf db else db) with
  | true => simp [processDatabase, hfil] at h
  | false =>
    cases hins : env.setInspector db with
    | ok u =>
        cases u
        simp [processDatabase, hfil, hins] at h
        exact ⟨h, rfl, rfl⟩
    | error er => simp [processDatabase, hfil, hins] at h

theorem processDatabase_of_error (env : DiscoveryEnv) (db e : String)
    (hfil : env.filterByDatabase
      (if env.useFqnForFiltering then env.fqnOf db else db) = false)
    (herr : env.setInspector db = Except.error e) :
    processDatabase env db
      = ([], [DiscoveryEvent.logError db, DiscoveryEvent.logWarning db]) := by
  simp [processDatabase, hfil, herr]

theorem processDatabase_of_ok (env : DiscoveryEnv) (db : String)
    (hfil : env.filterByDatabase
      (if env.useFqnForFiltering then env.fqnOf db else db) = false)
    (hok : env.setInspector db = Except.ok ()) :
    processDatabase env db = ([db], []) := by
  simp [processDatabase, hfil, hok]

/-! ## Claim C3 -/

/-- C3: whatever the filter pattern, the fqn flag and the collaborators do,
every name `get_database_names` yields came through the
`DREMIO_GET_DATABASES` result set, so it starts with neither "@" nor "$"
and contains no dot — the system namespaces are excluded by the query,
before `filter_by_database` is ever consulted. -/
theorem get_database_names_no_system_namespaces
    (env : DiscoveryEnv) (schemata : List String) (dbName : String)
    (hmem : dbName ∈ (get_database_names env schemata).1) :
    pyStartsWith dbName "@" = false ∧ pyStartsWith dbName "$" = false ∧
      pyContains dbName '.' = false := by
  rw [get_database_names_eq, List.mem_flatMap] at hmem
  obtain ⟨db, hdb, hx⟩ := hmem
  obtain ⟨rfl, -, -⟩ := mem_processDatabase_fst env db dbName hx
  rw [get_database_names_raw, DREMIO_GET_DATABASES, List.mem_filter] at hdb
  have hp := hdb.2
  simp only [Bool.and_eq_true, Bool.not_eq_true'] at hp
  exact ⟨hp.1.2, hp.2, hp.1.1⟩

/-- C3 (witness): on the concrete row set `schemataW` — which offers
"@tmp", "$internal" and "sales.public" — the yielded name "sales" is
system-clean. -/
theorem get_database_names_no_system_namespaces_witness :
    ("sales" ∈ (get_database_names envW schemataW).1) ∧
    (pyStartsWith "sales" "@" = false ∧ pyStartsWith "sales" "$" = false ∧
      pyContains "sales" '.' = false) :=
  ⟨by decide, get_database_names_no_system_namespaces envW schemataW "sales" (by decide)⟩

/-! ## Claim C6 -/

/-- C6: when `set_inspector` raises for one surviving candidate, the
exception is caught inside the loop: the candidate is not yielded, the
failure is reported (error log plus warning), and every other surviving
candidate whose context switch succeeds is still yielded. -/
theorem get_database_names_recovers_from_set_inspector_error
    (env : DiscoveryEnv) (schemata : List String) (db e : String)
    (hdb : db ∈ get_database_names_raw schemata)
    (hfil : env.filterByDatabase
      (if env.useFqnForFiltering then env.fqnOf db else db) = false)
    (herr : env.setInspector db = Except.error e) :
    db ∉ (get_database_names env schemata).1 ∧
    DiscoveryEvent.logWarning db ∈ (get_database_names env schemata).2 ∧
    ∀ other, other ∈ get_database_names_raw schemata →
      env.filterByDatabase
        (if env.useFqnForFiltering then env.fqnOf other else other) = false →
      env.setInspector other = Except.ok () →
      other ∈ (get_database_names env schemata).1 := by
  refine ⟨?_, ?_, ?_⟩
  · intro hcontra
    rw [get_database_names_eq, List.mem_flatMap] at hcontra
    obtain ⟨db2, -, hx⟩ := hcontra
    obtain ⟨heq, -, hok⟩ := mem_processDatabase_fst env db2 db hx
    rw [← heq, herr] at hok
    exact Except.noConfusion hok
  · rw [get_database_names_eq, List.mem_flatMap]
    refine ⟨db, hdb, ?_⟩
    rw [processDatabase_of_error env db e hfil herr]
    simp
  · intro other hmem hfil2 hok2
    rw [get_database_names_eq, List.mem_flatMap]
    refine ⟨other, hmem, ?_⟩
    rw [processDatabase_of_ok env other hfil2 hok2]
    simp

/-- C6 (witness): on `envW` and `schemataW`, the candidate "bad" survives
filtering, its context switch raises, it is not yielded, the warning is
reported and enumeration still yields the other survivors. -/
theorem get_database_names_recovers_from_set_inspector_error_witness :
    ("bad" ∈ get_database_names_raw schemataW) ∧
    (envW.filterByDatabase
      (if envW.useFqnForFiltering then envW.fqnOf "bad" else "bad") = false) ∧
    (envW.setInspector "bad" = Except.error "connection refused") ∧
    ("bad" ∉ (get_database_names envW schemataW).1 ∧
     DiscoveryEvent.logWarning "bad" ∈ (get_database_names envW schemataW).2 ∧
     ∀ other, other ∈ get_database_names_raw schemataW →
       envW.filterByDatabase
         (if envW.useFqnForFiltering then envW.fqnOf other else other) = false →
       envW.setInspector other = Except.ok () →
       other ∈ (get_database_names envW schemataW).1) :=
  ⟨by decide, by decide, rfl,
   get_database_names_recovers_from_set_inspector_error envW schemataW
     "bad" "connection refused" (by decide) (by decide) rfl⟩

/-! ## Claim C4 -/

/-- C4: with exactly the three required options set ("u", "p", "h:1234"),
`get_connection_url` renders precisely the scheme, the credentials, the
host and the two recognized booleans at their defaults. -/
theorem get_connection_url_minimal_options :
    get_connection_url [("username", "u"), ("password", "p"), ("hostPort", "h:1234")]
      = Except.ok
          "dremio+flight://u:p@h:1234/?UseEncryption=False&disableCertificateVerification=True" :=
  rfl

/-! ## Claim C5 -/

/-- C5: a missing or empty required option makes `get_connection_url`
raise `InvalidDremioConnectorException` naming that option instead of
returning any URL; the three required options are checked in the order
username, password, hostPort, and the first falsy one is named. -/
theorem get_connection_url_missing_required (opts : List (String × String)) :
    ((lookupOption opts "username").truthy = false →
      get_connection_url opts = Except.error "Missing connection option: username") ∧
    ((lookupOption opts "username").truthy = true →
     (lookupOption opts "password").truthy = false →
      get_connection_url opts = Except.error "Missing connection option: password") ∧
    ((lookupOption opts "username").truthy = true →
     (lookupOption opts "password").truthy = true →
     (lookupOption opts "hostPort").truthy = false →
      get_connection_url opts = Except.error "Missing connection option: hostPort") := by
  refine ⟨fun h1 => ?_, fun h1 h2 => ?_, fun h1 h2 h3 => ?_⟩
  · simp [get_connection_url, get_option_or_else, h1]
  · simp [get_connection_url, get_option_or_else, h1, h2]
  · simp [get_connection_url, get_option_or_else, h1, h2, h3]

/-- C5 (witness): with only username supplied, the resolver fails naming
password, the first missing required option. -/
theorem get_connection_url_missing_required_witness :
    ((lookupOption [("username", "u")] "username").truthy = true ∧
     (lookupOption [("username", "u")] "password").truthy = false) ∧
    get_connection_url [("username", "u")]
      = Except.error "Missing connection option: password" :=
  ⟨⟨by decide, by decide⟩,
   (get_connection_url_missing_required [("username", "u")]).2.1 (by decide) (by decide)⟩

/-! ## Claim C10 -/

/-- C10: an unrecognized pass-through option whose value is the empty
string survives validation, and — because the empty string is falsy, so
`_get_option_or_else` substitutes its unset default `None` — is rendered
in the query string as the literal text `k=None`, neither as `k=` nor
omitted. -/
theorem get_connection_url_empty_passthrough (u p h k : String)
    (hu : u ≠ "") (hp : p ≠ "") (hh : h ≠ "")
    (h1 : k ≠ "username") (h2 : k ≠ "password") (h3 : k ≠ "hostPort")
    (h4 : k ≠ "UseEncryption") (h5 : k ≠ "disableCertificateVerification") :
    get_connection_url [("username", u), ("password", p), ("hostPort", h), (k, "")]
      = Except.ok ("dremio+flight://" ++ u ++ ":" ++ p ++ "@" ++ h ++
          "/?UseEncryption=False&disableCertificateVerification=True&" ++ k ++ "=None") := by
  have eu : (u == "") = false := beq_eq_false_iff_ne.mpr hu
  have ep : (p == "") = false := beq_eq_false_iff_ne.mpr hp
  have eh : (h == "") = false := beq_eq_false_iff_ne.mpr hh
  have e1 : ("username" == k) = false := beq_eq_false_iff_ne.mpr (Ne.symm h1)
  have e2 : ("password" == k) = false := beq_eq_false_iff_ne.mpr (Ne.symm h2)
  have e3 : ("hostPort" == k) = false := beq_eq_false_iff_ne.mpr (Ne.symm h3)
  have f1 : (k == "username") = false := beq_eq_false_iff_ne.mpr h1
  have f2 : (k == "password") = false := beq_eq_false_iff_ne.mpr h2
  have f3 : (k == "hostPort") = false := beq_eq_false_iff_ne.mpr h3
  have f4 : (k == "UseEncryption") = false := beq_eq_false_iff_ne.mpr h4
  have f5 : (k == "disableCertificateVerification") = false := beq_eq_false_iff_ne.mpr h5
  simp [get_connection_url, get_option_or_else, optionValue, lookupOption,
    notHandledOptions, recognizedOptionKeys, joinAmp, PyVal.truthy, PyVal.toStr,
    List.find?, List.filter, List.elem, eu, ep, eh, e1, e2, e3, f1, f2, f3, f4, f5,
    hu, hp, hh, h1, h2, h3, h4, h5, Ne.symm h1, Ne.symm h2, Ne.symm h3,
    Ne.symm h4, Ne.symm h5]
  rw [show ("/?UseEncryption=False&disableCertificateVerification=True&" : String)
        = "/?" ++ "UseEncryption=False&" ++ "disableCertificateVerification=True&" from rfl,
      show ("=None" : String) = "=" ++ "None" from rfl]
  simp only [String.append_assoc]

/-- C10 (witness): the pass-through key "routing_tag" with empty value,
next to required options "u", "p", "h:1234". -/
theorem get_connection_url_empty_passthrough_witness :
    get_connection_url
        [("username", "u"), ("password", "p"), ("hostPort", "h:1234"), ("routing_tag", "")]
      = Except.ok ("dremio+flight://" ++ "u" ++ ":" ++ "p" ++ "@" ++ "h:1234" ++
          "/?UseEncryption=False&disableCertificateVerification=True&" ++ "routing_tag" ++ "=None") :=
  get_connection_url_empty_passthrough "u" "p" "h:1234" "routing_tag"
    (by decide) (by decide) (by decide) (by decide) (by decide) (by decide)
    (by decide) (by decide)

end DremioConnector
